import Mathlib

/-!
# Verification of the serverless-dns blocklist wrapper and env manager

Shallow embedding of `src/core/env.js` (environment loading and the
`EnvManager` class) and of the blocklist wrapper module
(`BlocklistWrapper`, `fileFetch`, `makeTd`), together with theorems
settling the specification claims about them.

JavaScript-level conventions used throughout the embedding:
* JS numbers that this code produces are either NaN or integers, modelled
  by `JsNum`;
* `undefined`/`null`/strings/numbers/booleans are modelled by `JsVal`;
* JS truthiness (`if (v)`, `a || b`) is modelled by `truthy`, `jsOrStr`
  and `jsOrInt`;
* byte buffers (`ArrayBuffer`) are modelled as `List Nat`.
-/

/-- A JavaScript number as produced by this code: NaN or an integer. -/
inductive JsNum where
  | nan : JsNum
  | int : Int → JsNum
deriving Repr, DecidableEq

/-- A JavaScript value, restricted to the shapes flowing through env.js. -/
inductive JsVal where
  | undef : JsVal
  | null : JsVal
  | b : Bool → JsVal
  | n : JsNum → JsVal
  | s : String → JsVal
deriving Repr, DecidableEq

/-- JavaScript truthiness of a `JsVal`: `undefined`, `null`, `false`,
`0`, `NaN` and `""` are falsy, everything else truthy. -/
def truthy : JsVal → Bool
  | .undef => false
  | .null => false
  | .b v => v
  | .n .nan => false
  | .n (.int k) => decide (k ≠ 0)
  | .s v => decide (v ≠ "")

/-- JS `a || b` on strings: the empty string is falsy. -/
def jsOrStr (a b : String) : String := if a = "" then b else a

/-- JS `a || b` on integer-valued numbers: `0` is falsy. -/
def jsOrInt (a b : Int) : Int := if a = 0 then b else a

/-- Parse a non-empty all-digit character list as a decimal `Nat`;
`none` when empty or when any character is not a digit. -/
def parseDigits (l : List Char) : Option Nat :=
  if l = [] then none
  else
    l.foldl
      (fun acc c =>
        match acc with
        | none => none
        | some a => if c.isDigit then some (a * 10 + (c.toNat - 48)) else none)
      (some 0)

/-- ASCII whitespace for the purposes of `Number()` trimming. -/
def jsWhitespace (c : Char) : Bool :=
  c = ' ' ∨ c = '\t' ∨ c = '\n' ∨ c = '\r'

/-- Strip leading and trailing whitespace from a character list. -/
def trimList (l : List Char) : List Char :=
  ((l.dropWhile jsWhitespace).reverse.dropWhile jsWhitespace).reverse

/-- Modelled from the spec: the JavaScript builtin `Number()` coercion on
strings (not repository code), restricted to optional-sign decimal integer
literals as used by the env defaults: the trimmed empty string coerces to
`0`, a decimal integer literal to its value, anything else to NaN. -/
def jsNumber (str : String) : JsNum :=
  match trimList str.toList with
  | [] => .int 0
  | '-' :: rest =>
    match parseDigits rest with
    | some v => .int (-(v : Int))
    | none => .nan
  | '+' :: rest =>
    match parseDigits rest with
    | some v => .int (v : Int)
    | none => .nan
  | l =>
    match parseDigits l with
    | some v => .int (v : Int)
    | none => .nan

/-- `Number()` applied to a possibly-undefined string:
`Number(undefined)` is NaN. -/
def jsNumberOpt : Option String → JsNum
  | some str => jsNumber str
  | none => .nan

/-! ## src/core/env.js -/

/-- The runtimes `_getRuntimeEnv` supports (any other runtime throws). -/
inductive Runtime where
  | worker : Runtime
  | node : Runtime
  | deno : Runtime
deriving Repr, DecidableEq

/-- Right hand side of a `_ENV_VAR_MAPPINGS` entry's `name`/`default`
field: either one string for all runtimes or one per runtime. -/
inductive NameSpec where
  | same : String → NameSpec
  | perRuntime : (worker node deno : String) → NameSpec
deriving Repr, DecidableEq

/-- Resolve a `NameSpec` for a runtime
(`typeof x === "object" ? x[runtime] : x`). -/
def resolveName : NameSpec → Runtime → String
  | .same nm, _ => nm
  | .perRuntime w _ _, .worker => w
  | .perRuntime _ nd _, .node => nd
  | .perRuntime _ _ d, .deno => d

/-- One entry of `_ENV_VAR_MAPPINGS`: internal key, runtime variable
name, declared type, and optional default. -/
structure EnvMapping where
  key : String
  name : NameSpec
  type : String
  dflt : Option NameSpec
deriving Repr, DecidableEq

/-- `_ENV_VAR_MAPPINGS` from src/core/env.js, in source order. -/
def _ENV_VAR_MAPPINGS : List EnvMapping :=
  [ ⟨"runTime", .same "RUNTIME", "string", none⟩,
    ⟨"runTimeEnv", .perRuntime "WORKER_ENV" "NODE_ENV" "DENO_ENV", "string",
      some (.perRuntime "development" "development" "development")⟩,
    ⟨"cloudPlatform", .same "CLOUD_PLATFORM", "string", some (.same "fly")⟩,
    ⟨"logLevel", .same "LOG_LEVEL", "string", some (.same "debug")⟩,
    ⟨"blocklistUrl", .same "CF_BLOCKLIST_URL", "string",
      some (.same "https://dist.rethinkdns.com/blocklists/")⟩,
    ⟨"latestTimestamp", .same "CF_LATEST_BLOCKLIST_TIMESTAMP", "string",
      some (.same "1638959365361")⟩,
    ⟨"dnsResolverUrl", .same "CF_DNS_RESOLVER_URL", "string",
      some (.same "https://cloudflare-dns.com/dns-query")⟩,
    ⟨"secondaryDohResolver", .same "CF_DNS_RESOLVER_URL_2", "string",
      some (.same "https://dns.google/dns-query")⟩,
    ⟨"workerTimeout", .same "WORKER_TIMEOUT", "number", some (.same "10000")⟩,
    ⟨"fetchTimeout", .same "CF_BLOCKLIST_DOWNLOAD_TIMEOUT", "number",
      some (.same "5000")⟩,
    ⟨"tdNodecount", .same "TD_NODE_COUNT", "number", some (.same "42112224")⟩,
    ⟨"tdParts", .same "TD_PARTS", "number", some (.same "2")⟩,
    ⟨"cacheTtl", .same "CACHE_TTL", "number", some (.same "1800")⟩ ]

/-- The raw value `_getRuntimeEnv` works with for one mapping: the
runtime environment variable (`process.env[name]` / `Deno.env.get(name)`
/ `globalThis[name]`, modelled by the lookup function `raw`), with the
resolved default substituted when the variable is unset
(`if (env[key] == null && val != null) env[key] = val`). -/
def defaultedRaw (m : EnvMapping) (rt : Runtime) (raw : String → Option String) :
    Option String :=
  match raw (resolveName m.name rt) with
  | some v => some v
  | none => m.dflt.map (fun d => resolveName d rt)

/-- The type cast at the end of `_getRuntimeEnv`'s loop:
`boolean` compares against the string `"true"`, `number` applies
`Number()`, `string` replaces a falsy value with `""`; an unsupported
type throws (modelled as `none`). -/
def castVal (ty : String) (v : Option String) : Option JsVal :=
  if ty = "boolean" then some (.b (v = some "true"))
  else if ty = "number" then some (.n (jsNumberOpt v))
  else if ty = "string" then some (.s (v.getD ""))
  else none

/-- One iteration of `_getRuntimeEnv`'s loop: resolve the runtime name
and default, read the runtime variable, default it, cast it. -/
def envEntry (rt : Runtime) (raw : String → Option String) (m : EnvMapping) :
    Option (String × JsVal) :=
  (castVal m.type (defaultedRaw m rt raw)).map (fun jv => (m.key, jv))

/-- `_getRuntimeEnv(runtime)`: the typed environment object, keyed by
internal name, built from `_ENV_VAR_MAPPINGS`. `raw` models the
runtime's environment variable store (`none` = unset/undefined). -/
def _getRuntimeEnv (rt : Runtime) (raw : String → Option String) :
    List (String × JsVal) :=
  _ENV_VAR_MAPPINGS.filterMap (envEntry rt raw)

/-- Object property lookup on the computed env object. -/
def envLookup (env : List (String × JsVal)) (key : String) : Option JsVal :=
  (env.find? (fun p => p.1 = key)).map (fun p => p.2)

/-! ### EnvManager -/

/-- JS `Map.get`. -/
def mapGet (m : List (String × JsVal)) (k : String) : Option JsVal :=
  (m.find? (fun p => p.1 = k)).map (fun p => p.2)

/-- JS `Map.set`: overwrite the existing binding in place, else append. -/
def mapSet : List (String × JsVal) → String → JsVal → List (String × JsVal)
  | [], k, v => [(k, v)]
  | (k', v') :: rest, k, v =>
    if k' = k then (k, v) :: rest else (k', v') :: mapSet rest k v

/-- The `EnvManager` state: the runtime determined at construction
(`none` models `_determineRuntime()` returning `null`) and the `envMap`. -/
structure EnvManager where
  runtime : Option Runtime
  envMap : List (String × JsVal)
deriving Repr, DecidableEq

namespace EnvManager

/-- The raw runtime environment lookup `EnvManager.get` falls back to:
`process.env[key]` / `Deno.env.get(key)` / `globalThis[key]` for the
known runtimes (modelled by the store `raw`), `null` otherwise. -/
def runtimeLookup (rt : Option Runtime) (raw : String → Option String)
    (key : String) : JsVal :=
  match rt with
  | some _ =>
    match raw key with
    | some v => .s v
    | none => .undef
  | none => .null

/-- `EnvManager.get(key)`: return the stored value if truthy, else fall
back to the raw runtime environment. -/
def get (em : EnvManager) (raw : String → Option String) (key : String) : JsVal :=
  match mapGet em.envMap key with
  | some v => if truthy v then v else runtimeLookup em.runtime raw key
  | none => runtimeLookup em.runtime raw key

/-- `EnvManager.set(key, value)`: store into `envMap` (the mirrored
write to `globalThis.env` is not read back by `get` and is not
modelled). -/
def set (em : EnvManager) (key : String) (v : JsVal) : EnvManager :=
  { em with envMap := mapSet em.envMap key v }

end EnvManager

/-! ## The blocklist wrapper module (`blocklistWrapper.js`) -/

/-- An HTTP response as seen by `fileFetch`: status code and body bytes. -/
structure HttpResp where
  status : Nat
  body : List Nat
deriving Repr, DecidableEq

/-- `Response.ok`: status in the inclusive range 200-299. -/
def respOk (r : HttpResp) : Bool := decide (200 ≤ r.status ∧ r.status < 300)

/-- A request issued by `fileFetch`: URL, conversion type, and the CDN
cache TTL hint (`cf: { cacheTtl: ... }`) attached to the `fetch` call. -/
structure FetchReq where
  url : String
  typ : String
  cacheTtl : Nat
deriving Repr, DecidableEq

/-- A thrown JS `Error`, keeping its message and stack; the stack of the
errors this module constructs is modelled as the message itself. -/
structure JsError where
  message : String
  stack : String
deriving Repr, DecidableEq

/-- What `fileFetch` resolves to: `res.arrayBuffer()` for type
`"buffer"`, `res.json()` for type `"json"` (the parsed-JSON document is
modelled by the body bytes it was parsed from). -/
inductive FileContent where
  | buf : List Nat → FileContent
  | jsonDoc : List Nat → FileContent
deriving Repr, DecidableEq

/-- The bytes underlying a `FileContent`. -/
def contentBytes : FileContent → List Nat
  | .buf bs => bs
  | .jsonDoc bs => bs

/-- `fileFetch(url, typ)`. `net` models the network: the HTTP response
each URL resolves to. Returns the result (`Except` models throw) paired
with the list of fetch requests actually issued. An unknown conversion
type throws before fetching; a non-ok (non-2xx) response throws after. -/
def fileFetch (net : String → HttpResp) (url typ : String) :
    Except JsError FileContent × List FetchReq :=
  if typ ≠ "buffer" ∧ typ ≠ "json" then
    (.error ⟨"Unknown conversion type at fileFetch",
             "Unknown conversion type at fileFetch"⟩, [])
  else
    let res := net url
    let req : FetchReq := ⟨url, typ, 1209600⟩
    if !respOk res then
      (.error ⟨"fileFetch fail " ++ url, "fileFetch fail " ++ url⟩, [req])
    else if typ = "buffer" then (.ok (.buf res.body), [req])
    else (.ok (.jsonDoc res.body), [req])

/-- Modelled from the spec: `bufutil.concat` (commons/bufutil.js, not
under src/) concatenates a list of buffers into one buffer in order. -/
def bufConcat (l : List (List Nat)) : List Nat := l.flatten

/-- `i.toLocaleString("en-US", { minimumIntegerDigits: 2,
useGrouping: false })` for the non-negative integers of the part loop:
at least two decimal digits, zero-padded, no grouping separators. -/
def fmt2 (i : Nat) : String :=
  if i < 10 then "0" ++ toString i else toString i

/-- The URLs `makeTd(baseurl, n)` fetches, in loop order: a single
`{baseurl}/td.txt` when `n ≤ -1`, else `{baseurl}/td00.txt` through
`{baseurl}/td{n}.txt`. -/
def makeTdUrls (baseurl : String) (n : Int) : List String :=
  if n ≤ -1 then [baseurl ++ "/td.txt"]
  else (List.range (n.toNat + 1)).map
    (fun i => baseurl ++ "/td" ++ fmt2 i ++ ".txt")

/-- `Promise.all` over `Except` results: the first error rejects the
whole list, otherwise all values in order. -/
def seqExcept : List (Except JsError FileContent) →
    Except JsError (List FileContent)
  | [] => .ok []
  | x :: xs =>
    match x with
    | .error e => .error e
    | .ok a =>
      match seqExcept xs with
      | .error e => .error e
      | .ok l => .ok (a :: l)

/-- `makeTd(baseurl, n)`: fetch `{baseurl}/td.txt` when `n ≤ -1`, else
fetch every part concurrently (all requests are issued regardless of
individual failures) and concatenate the parts in ascending order. -/
def makeTd (net : String → HttpResp) (baseurl : String) (n : Int) :
    Except JsError (List Nat) × List FetchReq :=
  if n ≤ -1 then
    let rq := fileFetch net (baseurl ++ "/td.txt") "buffer"
    (rq.1.map contentBytes, rq.2)
  else
    let results := (makeTdUrls baseurl n).map (fun u => fileFetch net u "buffer")
    let reqs := (results.map Prod.snd).flatten
    match seqExcept (results.map Prod.fst) with
    | .error e => (.error e, reqs)
    | .ok tds => (.ok (bufConcat (tds.map contentBytes)), reqs)

/-- `{ nodecount, tdparts }` (blocklistBasicConfig). -/
structure BasicConfig where
  nodecount : Int
  tdparts : Int
deriving Repr, DecidableEq

/-- The constructed blocklist filter snapshot. -/
structure FilterData where
  td : List Nat
  rd : List Nat
  ftag : List Nat
  config : BasicConfig
deriving Repr, DecidableEq

/-- Modelled from the spec: `createBlocklistFilter` (radixTrie.js, not
under src/) builds the succinct-trie filter from the trie blob, the
rank directory, the file tags and the basic config; modelled as the
record of its inputs, since no claim depends on trie internals. -/
def createBlocklistFilter (td rd ft : List Nat) (cfg : BasicConfig) :
    FilterData :=
  ⟨td, rd, ft, cfg⟩

/-- The `BlocklistWrapper` instance state. `filter = none` models a
`blocklistFilter` on which no trie has been loaded yet (Empty);
`filter = some f` models a loaded filter (Ready). -/
structure BlocklistWrapper where
  filter : Option FilterData
  td : Option (List Nat)
  rd : Option (List Nat)
  ft : Option (List Nat)
  startTime : Int
  isBlocklistUnderConstruction : Bool
  exceptionFrom : String
  exceptionStack : String
deriving Repr, DecidableEq

/-- The module's response record: `util.emptyResponse` /
`util.errResponse` shapes with `data.blocklistFilter`. -/
structure Response where
  isException : Bool
  exceptionStack : String
  exceptionFrom : String
  blocklistFilter : Option FilterData
deriving Repr, DecidableEq

/-- Modelled from the spec: `util.emptyResponse()` (commons/util.js, not
under src/) - a non-exception response with empty data. -/
def emptyResponse : Response := ⟨false, "", "", none⟩

/-- Modelled from the spec: `util.errResponse(from, e)` (commons/util.js,
not under src/) - per the spec's propagation policy it carries the
failure origin in `exceptionFrom` and the error's stack in
`exceptionStack`, with `isException` set. -/
def errResponse (frm : String) (e : JsError) : Response :=
  ⟨true, e.stack, frm, none⟩

namespace BlocklistWrapper

/-- Modelled from the spec: `rdnsutil.isBlocklistFilterSetup` (not under
src/) - whether the filter snapshot is ready. -/
def isBlocklistFilterSetup (w : BlocklistWrapper) : Bool :=
  w.filter.isSome

/-- `downloadBuildBlocklist`: build `baseurl`, apply the `||  -1`
falsy-defaulting to `tdNodecount`/`tdParts`, issue the three concurrent
fetches (filetag.json as JSON, the assembled td, rd.txt as binary),
await them all, store the artifacts on the wrapper and build the
filter. Returns the result, the updated wrapper and all issued
requests (on rejection the artifact fields are not yet assigned). -/
def downloadBuildBlocklist (net : String → HttpResp) (w : BlocklistWrapper)
    (blocklistUrl latestTimestamp : String) (tdNodecount tdParts : Int) :
    Except JsError FilterData × BlocklistWrapper × List FetchReq :=
  let baseurl := blocklistUrl ++ latestTimestamp
  let cfg : BasicConfig := ⟨jsOrInt tdNodecount (-1), jsOrInt tdParts (-1)⟩
  let d0 := fileFetch net (baseurl ++ "/filetag.json") "json"
  let d1 := makeTd net baseurl cfg.tdparts
  let d2 := fileFetch net (baseurl ++ "/rd.txt") "buffer"
  let reqs := d0.2 ++ d1.2 ++ d2.2
  match d0.1, d1.1, d2.1 with
  | .error e, _, _ => (.error e, w, reqs)
  | _, .error e, _ => (.error e, w, reqs)
  | _, _, .error e => (.error e, w, reqs)
  | .ok ft, .ok td, .ok rdc =>
    let w' := { w with
      td := some td, rd := some (contentBytes rdc),
      ft := some (contentBytes ft) }
    (.ok (createBlocklistFilter td (contentBytes rdc) (contentBytes ft) cfg),
     w', reqs)

/-- `initBlocklistConstruction(rxid, when, ...)`: raise the
under-construction flag, stamp `startTime = when`, run the download and
build; on success load the filter into the wrapper and return it in the
response, on failure return an error response and record its
`exceptionFrom`/`exceptionStack` on the wrapper; in both cases clear
the under-construction flag before returning. -/
def initBlocklistConstruction (net : String → HttpResp) (w : BlocklistWrapper)
    (whenMs : Int) (blocklistUrl latestTimestamp : String)
    (tdNodecount tdParts : Int) :
    Response × BlocklistWrapper × List FetchReq :=
  let w1 := { w with isBlocklistUnderConstruction := true, startTime := whenMs }
  let d :=
    downloadBuildBlocklist net w1 blocklistUrl latestTimestamp
      tdNodecount tdParts
  match d.1 with
  | .ok bl =>
    ({ emptyResponse with blocklistFilter := some bl },
     { d.2.1 with filter := some bl, isBlocklistUnderConstruction := false },
     d.2.2)
  | .error e =>
    let resp := errResponse "initBlocklistConstruction" e
    (resp,
     { d.2.1 with
        exceptionFrom := resp.exceptionFrom,
        exceptionStack := resp.exceptionStack,
        isBlocklistUnderConstruction := false },
     d.2.2)

/-- The waiter's poll loop (`while (totalWaitms < downloadTimeout)`),
checking the filter every 50 ms. `filterAt t` is the filter the wrapper
holds `t` milliseconds after the waiter entered the loop (the in-flight
builder may install it concurrently). Returns the filter observed at
the first successful poll, or `none` when every poll before the
timeout fails. -/
def pollLoop (filterAt : Nat → Option FilterData) (timeout total : Nat) :
    Option FilterData :=
  if h : total < timeout then
    match filterAt total with
    | some f => some f
    | none => pollLoop filterAt timeout (total + 50)
  else none
termination_by timeout - total
decreasing_by omega

/-- The `else` branch of `RethinkModule` (someone else is
constructing): poll until the filter appears or the timeout elapses;
on timeout return an exception response built from the wrapper's
recorded exception, with `"download timeout"` /
`"blocklistWrapper.js"` as fallbacks. The waiter writes nothing. -/
def rethinkWait (w : BlocklistWrapper) (filterAt : Nat → Option FilterData)
    (timeout : Nat) : Response :=
  match pollLoop filterAt timeout 0 with
  | some f => { emptyResponse with blocklistFilter := some f }
  | none =>
    { emptyResponse with
        isException := true,
        exceptionStack := jsOrStr w.exceptionStack "download timeout",
        exceptionFrom := jsOrStr w.exceptionFrom "blocklistWrapper.js" }

/-- `RethinkModule(param)`: serve the filter immediately when it is set
up; otherwise start a construction when none is under way or when the
one under way started more than `2 * downloadTimeout` ms ago; otherwise
wait for the in-flight construction. Returns the response, the wrapper
state as left by this call's own writes, and the fetch requests this
call issued. -/
def RethinkModule (net : String → HttpResp) (w : BlocklistWrapper)
    (now : Int) (timeout : Nat) (blocklistUrl latestTimestamp : String)
    (tdNodecount tdParts : Int) (filterAt : Nat → Option FilterData) :
    Response × BlocklistWrapper × List FetchReq :=
  if isBlocklistFilterSetup w then
    ({ emptyResponse with blocklistFilter := w.filter }, w, [])
  else if ¬w.isBlocklistUnderConstruction ∨
      now - w.startTime > (timeout : Int) * 2 then
    initBlocklistConstruction net w now blocklistUrl latestTimestamp
      tdNodecount tdParts
  else
    (rethinkWait w filterAt timeout, w, [])

end BlocklistWrapper

/-! ## Theorems: environment loading (claims about src/core/env.js) -/

/-- Helper: `Map.get` after `Map.set` of the same key sees the value. -/
theorem mapGet_mapSet (m : List (String × JsVal)) (k : String) (v : JsVal) :
    mapGet (mapSet m k v) k = some v := by
  induction m with
  | nil => simp [mapSet, mapGet, List.find?]
  | cons hd tl ih =>
    by_cases h : hd.1 = k
    · simp [mapSet, h, mapGet, List.find?]
    · simpa [mapSet, h, mapGet, List.find?] using ih

/-- Helper: what `castVal` can return for each declared type. -/
theorem castVal_cases (ty : String) (v : Option String) (jv : JsVal)
    (h : castVal ty v = some jv) :
    (ty = "number" → jv = .n (jsNumberOpt v)) ∧
    (ty = "boolean" → jv = .b (decide (v = some "true"))) ∧
    (ty = "string" → jv = .s (v.getD "")) := by
  refine ⟨?_, ?_, ?_⟩ <;> intro hty <;> subst hty <;>
    simp [castVal] at h <;> exact h.symm

/-- C8: when the corresponding runtime environment variable is unset,
the loaded configuration takes the declared defaults: `blocklistUrl`
is `"https://dist.rethinkdns.com/blocklists/"`, `latestTimestamp` is
`"1638959365361"`, and the blocklist download timeout `fetchTimeout`
is the number 5000. -/
theorem env_defaults_when_unset (rt : Runtime) (raw : String → Option String) :
    (raw "CF_BLOCKLIST_URL" = none →
      envLookup (_getRuntimeEnv rt raw) "blocklistUrl" =
        some (.s "https://dist.rethinkdns.com/blocklists/")) ∧
    (raw "CF_LATEST_BLOCKLIST_TIMESTAMP" = none →
      envLookup (_getRuntimeEnv rt raw) "latestTimestamp" =
        some (.s "1638959365361")) ∧
    (raw "CF_BLOCKLIST_DOWNLOAD_TIMEOUT" = none →
      envLookup (_getRuntimeEnv rt raw) "fetchTimeout" =
        some (.n (.int 5000))) := by
  refine ⟨?_, ?_, ?_⟩ <;> intro h <;>
    simp [_getRuntimeEnv, _ENV_VAR_MAPPINGS, envEntry, defaultedRaw,
      castVal, resolveName, envLookup, List.find?, h] <;>
    decide

/-- Closed witness for `env_defaults_when_unset` on a concrete store. -/
theorem env_defaults_when_unset_witness :
    envLookup (_getRuntimeEnv .node (fun _ => none)) "blocklistUrl" =
      some (.s "https://dist.rethinkdns.com/blocklists/") ∧
    envLookup (_getRuntimeEnv .node (fun _ => none)) "latestTimestamp" =
      some (.s "1638959365361") ∧
    envLookup (_getRuntimeEnv .node (fun _ => none)) "fetchTimeout" =
      some (.n (.int 5000)) :=
  ⟨(env_defaults_when_unset .node (fun _ => none)).1 rfl,
   (env_defaults_when_unset .node (fun _ => none)).2.1 rfl,
   (env_defaults_when_unset .node (fun _ => none)).2.2 rfl⟩

/-- C9: `EnvManager.get` after `EnvManager.set` of the same key returns
the stored value exactly when it is truthy; a falsy stored value is
ignored and `get` falls back to the raw runtime environment lookup. -/
theorem envManager_get_set_truthiness (em : EnvManager)
    (raw : String → Option String) (key : String) (v : JsVal) :
    (truthy v = true → (em.set key v).get raw key = v) ∧
    (truthy v = false →
      (em.set key v).get raw key = EnvManager.runtimeLookup em.runtime raw key) := by
  constructor <;> intro h <;>
    simp [EnvManager.get, EnvManager.set, mapGet_mapSet, h]

/-- Closed witness for `envManager_get_set_truthiness`: a truthy string
round-trips, a falsy number is shadowed by the runtime store. -/
theorem envManager_get_set_truthiness_witness :
    ((⟨some .node, []⟩ : EnvManager).set "K" (.s "x")).get
        (fun _ => some "raw") "K" = .s "x" ∧
    ((⟨some .node, []⟩ : EnvManager).set "K" (.n (.int 0))).get
        (fun _ => some "raw") "K" =
      EnvManager.runtimeLookup (some .node) (fun _ => some "raw") "K" :=
  ⟨(envManager_get_set_truthiness ⟨some .node, []⟩ (fun _ => some "raw")
      "K" (.s "x")).1 rfl,
   (envManager_get_set_truthiness ⟨some .node, []⟩ (fun _ => some "raw")
      "K" (.n (.int 0))).2 rfl⟩

/-- C10: every entry `_getRuntimeEnv` produces comes from a mapping with
the same key and has its declared type: a `"number"` entry is `Number()`
of the (defaulted) raw value, a `"boolean"` entry is `true` iff that
value is exactly `"true"`, and a `"string"` entry is a string (the
value, with any falsy value replaced by `""`). -/
theorem getRuntimeEnv_typed_entries (rt : Runtime)
    (raw : String → Option String) (key : String) (v : JsVal)
    (hmem : (key, v) ∈ _getRuntimeEnv rt raw) :
    ∃ m ∈ _ENV_VAR_MAPPINGS, m.key = key ∧
      (m.type = "number" → v = .n (jsNumberOpt (defaultedRaw m rt raw))) ∧
      (m.type = "boolean" → v = .b (decide (defaultedRaw m rt raw = some "true"))) ∧
      (m.type = "string" → v = .s ((defaultedRaw m rt raw).getD "")) := by
  rw [_getRuntimeEnv, List.mem_filterMap] at hmem
  obtain ⟨m, hm, hf⟩ := hmem
  rw [envEntry, Option.map_eq_some'] at hf
  obtain ⟨jv, hcast, hpair⟩ := hf
  obtain ⟨hkey, hv⟩ := Prod.mk.injEq _ _ _ _ ▸ hpair
  subst hv
  exact ⟨m, hm, hkey, castVal_cases m.type _ jv hcast⟩

/-- Closed witness for `getRuntimeEnv_typed_entries` at a concrete
produced entry. -/
theorem getRuntimeEnv_typed_entries_witness :
    ∃ m ∈ _ENV_VAR_MAPPINGS, m.key = "fetchTimeout" ∧
      (m.type = "number" →
        JsVal.n (.int 5000) =
          .n (jsNumberOpt (defaultedRaw m .node (fun _ => none)))) ∧
      (m.type = "boolean" →
        JsVal.n (.int 5000) =
          .b (decide (defaultedRaw m .node (fun _ => none) = some "true"))) ∧
      (m.type = "string" →
        JsVal.n (.int 5000) =
          .s ((defaultedRaw m .node (fun _ => none)).getD "")) :=
  getRuntimeEnv_typed_entries .node (fun _ => none) "fetchTimeout"
    (.n (.int 5000)) (by decide)

/-! ## Theorems: the wrapper's concurrency gate -/

/-- Helper: when every 50 ms poll before the timeout sees no filter,
the poll loop returns `none`. (`n` bounds the remaining iterations.) -/
theorem pollLoop_eq_none (filterAt : Nat → Option FilterData) (timeout : Nat) :
    ∀ n total, timeout - total ≤ n →
      (∀ k, total + 50 * k < timeout → filterAt (total + 50 * k) = none) →
      BlocklistWrapper.pollLoop filterAt timeout total = none := by
  intro n
  induction n with
  | zero =>
    intro total hle _h
    rw [BlocklistWrapper.pollLoop]
    split
    · omega
    · rfl
  | succ n ih =>
    intro total hle h
    rw [BlocklistWrapper.pollLoop]
    split
    · rename_i ht
      have h0 : filterAt total = none := by simpa using h 0 (by omega)
      rw [h0]
      exact ih (total + 50) (by omega) (fun k hk => by
        have hx := h (k + 1) (by omega)
        have e : total + 50 * (k + 1) = total + 50 + 50 * k := by ring
        rw [e] at hx
        exact hx)
    · rfl

/-- Helper: the poll loop returns the filter observed at the first
successful poll, provided it happens before the timeout. -/
theorem pollLoop_eq_some (filterAt : Nat → Option FilterData) (timeout : Nat) :
    ∀ kk total f, (∀ j, j < kk → filterAt (total + 50 * j) = none) →
      filterAt (total + 50 * kk) = some f → total + 50 * kk < timeout →
      BlocklistWrapper.pollLoop filterAt timeout total = some f := by
  intro kk
  induction kk with
  | zero =>
    intro total f _ hk hlt
    rw [BlocklistWrapper.pollLoop]
    split
    · simp only [Nat.mul_zero, Nat.add_zero] at hk
      rw [hk]
    · omega
  | succ kk ih =>
    intro total f hprev hk hlt
    rw [BlocklistWrapper.pollLoop]
    split
    · have h0 : filterAt total = none := by simpa using hprev 0 (by omega)
      rw [h0]
      refine ih (total + 50) f (fun j hj => ?_) ?_ (by omega)
      · have hx := hprev (j + 1) (by omega)
        have e : total + 50 * (j + 1) = total + 50 + 50 * j := by ring
        rw [e] at hx
        exact hx
      · have e : total + 50 * (kk + 1) = total + 50 + 50 * kk := by ring
        rw [e] at hk
        exact hk
    · omega

/-- Helper: a call that finds no filter, an in-flight construction, and
a construction window that has not yet expired takes the wait branch:
it issues no fetches and leaves the wrapper untouched. -/
theorem rethink_wait_branch (net : String → HttpResp) (w : BlocklistWrapper)
    (now : Int) (timeout : Nat) (bu ts : String) (ndc tdp : Int)
    (filterAt : Nat → Option FilterData)
    (hsetup : w.isBlocklistFilterSetup = false)
    (hcons : w.isBlocklistUnderConstruction = true)
    (hfresh : now - w.startTime ≤ (timeout : Int) * 2) :
    BlocklistWrapper.RethinkModule net w now timeout bu ts ndc tdp filterAt =
      (BlocklistWrapper.rethinkWait w filterAt timeout, w, []) := by
  have hc2 : ¬(¬(w.isBlocklistUnderConstruction = true) ∨
      now - w.startTime > (timeout : Int) * 2) := by
    push_neg
    exact ⟨hcons, hfresh⟩
  rw [BlocklistWrapper.RethinkModule, if_neg (by simp [hsetup]), if_neg hc2]

/-- C1 (amended): a call to `RethinkModule` that arrives while
`isBlocklistUnderConstruction` is true and no filter is set up never
initiates a second download/construction PROVIDED the in-flight
construction began at most `2 * downloadTimeout` ms ago
(`now - startTime ≤ 2 * downloadTimeout`): such a call takes the wait
branch, issues no fetch requests and leaves the wrapper state
untouched. (Without the proviso the code deliberately re-initiates
construction of a stale build.) -/
theorem rethinkModule_no_second_build_within_window
    (net : String → HttpResp) (w : BlocklistWrapper) (now : Int)
    (timeout : Nat) (bu ts : String) (ndc tdp : Int)
    (filterAt : Nat → Option FilterData)
    (hsetup : w.isBlocklistFilterSetup = false)
    (hcons : w.isBlocklistUnderConstruction = true)
    (hfresh : now - w.startTime ≤ (timeout : Int) * 2) :
    BlocklistWrapper.RethinkModule net w now timeout bu ts ndc tdp filterAt =
      (BlocklistWrapper.rethinkWait w filterAt timeout, w, []) :=
  rethink_wait_branch net w now timeout bu ts ndc tdp filterAt
    hsetup hcons hfresh

/-- Closed witness for `rethinkModule_no_second_build_within_window`. -/
theorem rethinkModule_no_second_build_within_window_witness :
    BlocklistWrapper.RethinkModule (fun _ => ⟨200, []⟩)
        ⟨none, none, none, none, 0, true, "", ""⟩ 100 5000 "u/" "t" 1 2
        (fun _ => none) =
      (BlocklistWrapper.rethinkWait ⟨none, none, none, none, 0, true, "", ""⟩
        (fun _ => none) 5000,
       ⟨none, none, none, none, 0, true, "", ""⟩, []) :=
  rethinkModule_no_second_build_within_window (fun _ => ⟨200, []⟩)
    ⟨none, none, none, none, 0, true, "", ""⟩ 100 5000 "u/" "t" 1 2
    (fun _ => none) rfl rfl (by norm_num)

/-- C1 counterexample: the claim as stated is false. A call that finds
`isBlocklistUnderConstruction = true` and no filter set up DOES
initiate a second download when `now - startTime > 2 * downloadTimeout`
(here `now = 10001`, `startTime = 0`, `downloadTimeout = 5000`): it
issues a fresh round of artifact fetches. -/
theorem rethinkModule_rebuilds_despite_under_construction :
    ((⟨none, none, none, none, 0, true, "", ""⟩ :
        BlocklistWrapper).isBlocklistUnderConstruction = true) ∧
    ((⟨none, none, none, none, 0, true, "", ""⟩ :
        BlocklistWrapper).isBlocklistFilterSetup = false) ∧
    (BlocklistWrapper.RethinkModule (fun _ => ⟨200, []⟩)
        ⟨none, none, none, none, 0, true, "", ""⟩ 10001 5000 "u/" "t" 1 2
        (fun _ => none)).2.2 =
      [⟨"u/t/filetag.json", "json", 1209600⟩,
       ⟨"u/t/td00.txt", "buffer", 1209600⟩,
       ⟨"u/t/td01.txt", "buffer", 1209600⟩,
       ⟨"u/t/td02.txt", "buffer", 1209600⟩,
       ⟨"u/t/rd.txt", "buffer", 1209600⟩] ∧
    (BlocklistWrapper.RethinkModule (fun _ => ⟨200, []⟩)
        ⟨none, none, none, none, 0, true, "", ""⟩ 10001 5000 "u/" "t" 1 2
        (fun _ => none)).2.2 ≠ [] := by
  refine ⟨rfl, rfl, by decide, by decide⟩

/-- C2: while a build is in progress (and its window has not expired),
a waiting `RethinkModule` call writes nothing to the wrapper and issues
no fetches (so it cannot cancel the in-flight build); it polls at 50 ms
intervals, returning the finished `blocklistFilter` observed at the
first successful poll before `downloadTimeout`, and when every poll
before `downloadTimeout` fails it returns an exception response whose
fields are the recorded exception, with `"download timeout"` /
`"blocklistWrapper.js"` as fallbacks. -/
theorem rethinkModule_wait_poll_outcomes
    (net : String → HttpResp) (w : BlocklistWrapper) (now : Int)
    (timeout : Nat) (bu ts : String) (ndc tdp : Int)
    (filterAt : Nat → Option FilterData)
    (hsetup : w.isBlocklistFilterSetup = false)
    (hcons : w.isBlocklistUnderConstruction = true)
    (hfresh : now - w.startTime ≤ (timeout : Int) * 2) :
    (BlocklistWrapper.RethinkModule net w now timeout bu ts ndc tdp
        filterAt).2.1 = w ∧
    (BlocklistWrapper.RethinkModule net w now timeout bu ts ndc tdp
        filterAt).2.2 = [] ∧
    (∀ kk f, (∀ j, j < kk → filterAt (50 * j) = none) →
      filterAt (50 * kk) = some f → 50 * kk < timeout →
      (BlocklistWrapper.RethinkModule net w now timeout bu ts ndc tdp
          filterAt).1 =
        { emptyResponse with blocklistFilter := some f }) ∧
    ((∀ kk, 50 * kk < timeout → filterAt (50 * kk) = none) →
      (BlocklistWrapper.RethinkModule net w now timeout bu ts ndc tdp
          filterAt).1 =
        { emptyResponse with
            isException := true,
            exceptionStack := jsOrStr w.exceptionStack "download timeout",
            exceptionFrom := jsOrStr w.exceptionFrom "blocklistWrapper.js" }) := by
  have hr := rethink_wait_branch net w now timeout bu ts ndc tdp filterAt
    hsetup hcons hfresh
  rw [hr]
  refine ⟨rfl, rfl, ?_, ?_⟩
  · intro kk f hprev hk hlt
    rw [BlocklistWrapper.rethinkWait,
      pollLoop_eq_some filterAt timeout kk 0 f
        (fun j hj => by simpa using hprev j hj) (by simpa using hk)
        (by omega)]
  · intro hall
    rw [BlocklistWrapper.rethinkWait,
      pollLoop_eq_none filterAt timeout timeout 0 (by omega)
        (fun k hk => by simpa using hall k (by omega))]

/-- Closed witness for `rethinkModule_wait_poll_outcomes`: a build that
finishes at the 50 ms poll is returned to the waiter. -/
theorem rethinkModule_wait_poll_outcomes_witness :
    (BlocklistWrapper.RethinkModule (fun _ => ⟨200, []⟩)
        ⟨none, none, none, none, 0, true, "", ""⟩ 0 100 "" "" 0 0
        (fun t => if t = 50 then some ⟨[], [], [], ⟨0, 0⟩⟩ else none)).1 =
      { emptyResponse with blocklistFilter := some ⟨[], [], [], ⟨0, 0⟩⟩ } :=
  (rethinkModule_wait_poll_outcomes (fun _ => ⟨200, []⟩)
      ⟨none, none, none, none, 0, true, "", ""⟩ 0 100 "" "" 0 0
      (fun t => if t = 50 then some ⟨[], [], [], ⟨0, 0⟩⟩ else none)
      rfl rfl (by norm_num)).2.2.1 1 ⟨[], [], [], ⟨0, 0⟩⟩
    (by decide) (by decide) (by decide)

/-- C7: once the filter is set up, `RethinkModule` returns that same
`blocklistFilter` in the response, issues no fetch requests, starts no
construction, and leaves every wrapper field (the snapshot included)
unchanged. -/
theorem rethinkModule_ready_fast_path
    (net : String → HttpResp) (w : BlocklistWrapper) (now : Int)
    (timeout : Nat) (bu ts : String) (ndc tdp : Int)
    (filterAt : Nat → Option FilterData) (f : FilterData)
    (hf : w.filter = some f) :
    BlocklistWrapper.RethinkModule net w now timeout bu ts ndc tdp filterAt =
      ({ emptyResponse with blocklistFilter := some f }, w, []) := by
  rw [BlocklistWrapper.RethinkModule,
    if_pos (show BlocklistWrapper.isBlocklistFilterSetup w = true by
      simp [BlocklistWrapper.isBlocklistFilterSetup, hf]), hf]

/-- Closed witness for `rethinkModule_ready_fast_path`. -/
theorem rethinkModule_ready_fast_path_witness :
    BlocklistWrapper.RethinkModule (fun _ => ⟨200, []⟩)
        ⟨some ⟨[1], [2], [3], ⟨4, 5⟩⟩, none, none, none, 7, false, "", ""⟩
        9 5000 "u/" "t" 1 2 (fun _ => none) =
      ({ emptyResponse with blocklistFilter := some ⟨[1], [2], [3], ⟨4, 5⟩⟩ },
       ⟨some ⟨[1], [2], [3], ⟨4, 5⟩⟩, none, none, none, 7, false, "", ""⟩,
       []) :=
  rethinkModule_ready_fast_path (fun _ => ⟨200, []⟩)
    ⟨some ⟨[1], [2], [3], ⟨4, 5⟩⟩, none, none, none, 7, false, "", ""⟩
    9 5000 "u/" "t" 1 2 (fun _ => none) ⟨[1], [2], [3], ⟨4, 5⟩⟩ rfl

/-! ## Theorems: artifact fetching and build abort -/

/-- Helper: a valid-typed `fileFetch` issues exactly one request, with
the two-week CDN cache TTL, whatever the response status. -/
theorem fileFetch_reqs (net : String → HttpResp) (url typ : String)
    (h : typ = "buffer" ∨ typ = "json") :
    (fileFetch net url typ).2 = [⟨url, typ, 1209600⟩] := by
  rcases h with rfl | rfl <;> unfold fileFetch <;> simp <;> split_ifs <;> rfl

/-- Helper: a 2xx `"buffer"` fetch resolves to the body bytes. -/
theorem fileFetch_buffer_ok (net : String → HttpResp) (url : String)
    (hok : respOk (net url) = true) :
    fileFetch net url "buffer" =
      (.ok (.buf (net url).body), [⟨url, "buffer", 1209600⟩]) := by
  unfold fileFetch
  simp [hok]

/-- Helper: a 2xx `"json"` fetch resolves to the parsed JSON document. -/
theorem fileFetch_json_ok (net : String → HttpResp) (url : String)
    (hok : respOk (net url) = true) :
    fileFetch net url "json" =
      (.ok (.jsonDoc (net url).body), [⟨url, "json", 1209600⟩]) := by
  unfold fileFetch
  simp [hok]

/-- Helper: a non-2xx response makes `fileFetch` throw. -/
theorem fileFetch_not_ok (net : String → HttpResp) (url typ : String)
    (h : typ = "buffer" ∨ typ = "json") (hbad : respOk (net url) = false) :
    (fileFetch net url typ).1 =
      .error ⟨"fileFetch fail " ++ url, "fileFetch fail " ++ url⟩ := by
  rcases h with rfl | rfl <;> unfold fileFetch <;> simp [hbad]

/-- Helper: flattening singleton request lists. -/
theorem flatten_map_singleton (l : List String) :
    (l.map (fun u => [(⟨u, "buffer", 1209600⟩ : FetchReq)])).flatten =
      l.map (fun u => (⟨u, "buffer", 1209600⟩ : FetchReq)) := by
  induction l <;> simp_all

/-- Helper: the requests `makeTd` issues are exactly one buffer request
per URL of `makeTdUrls`, in order, each with the two-week TTL. -/
theorem makeTd_reqs (net : String → HttpResp) (baseurl : String) (n : Int) :
    (makeTd net baseurl n).2 =
      (makeTdUrls baseurl n).map (fun u => (⟨u, "buffer", 1209600⟩ : FetchReq)) := by
  by_cases hn : n ≤ -1
  · rw [makeTd, if_pos hn, makeTdUrls, if_pos hn]
    simp [fileFetch_reqs]
  · have he : (Prod.snd ∘ fun u => fileFetch net u "buffer") =
        fun u => [(⟨u, "buffer", 1209600⟩ : FetchReq)] :=
      funext fun u => fileFetch_reqs net u "buffer" (Or.inl rfl)
    rw [makeTd, if_neg hn]
    dsimp only
    split <;> simp only [List.map_map] <;> rw [he, flatten_map_singleton]

/-- Helper: an error anywhere in the awaited list rejects `Promise.all`. -/
theorem seqExcept_has_error (l : List (Except JsError FileContent))
    (e : JsError) (x : Except JsError FileContent) (hx : x ∈ l)
    (he : x = .error e) : ∃ e2, seqExcept l = .error e2 := by
  induction l with
  | nil => cases hx
  | cons hd tl ih =>
    rcases List.mem_cons.mp hx with rfl | hx2
    · exact ⟨e, by simp [seqExcept, he]⟩
    · obtain ⟨e2, h2⟩ := ih hx2
      cases hhd : hd with
      | error e0 => exact ⟨e0, by simp [seqExcept]⟩
      | ok a => exact ⟨e2, by simp [seqExcept, h2]⟩

/-- Helper: when every part fetch is 2xx, the awaited part list is the
list of bodies, in URL order. -/
theorem seqExcept_map_ok (net : String → HttpResp) (urls : List String)
    (h : ∀ u ∈ urls, respOk (net u) = true) :
    seqExcept (urls.map (fun u => (fileFetch net u "buffer").1)) =
      .ok (urls.map (fun u => FileContent.buf (net u).body)) := by
  induction urls with
  | nil => rfl
  | cons hd tl ih =>
    have h1 : (fileFetch net hd "buffer").1 = .ok (.buf (net hd).body) := by
      rw [fileFetch_buffer_ok net hd (h hd (List.mem_cons_self hd tl))]
    have h2 := ih (fun u hu => h u (List.mem_cons_of_mem hd hu))
    simp [seqExcept, h1, h2]

/-- Helper: a non-2xx response on any URL `makeTd` requests makes
`makeTd` reject. -/
theorem makeTd_req_fail (net : String → HttpResp) (baseurl : String)
    (n : Int) (req : FetchReq) (hmem : req ∈ (makeTd net baseurl n).2)
    (hbad : respOk (net req.url) = false) :
    ∃ e, (makeTd net baseurl n).1 = .error e := by
  rw [makeTd_reqs] at hmem
  obtain ⟨u, hu, rfl⟩ := List.mem_map.mp hmem
  by_cases hn : n ≤ -1
  · rw [makeTdUrls, if_pos hn] at hu
    simp only [List.mem_singleton] at hu
    subst hu
    rw [makeTd, if_pos hn]
    refine ⟨⟨"fileFetch fail " ++ (baseurl ++ "/td.txt"),
            "fileFetch fail " ++ (baseurl ++ "/td.txt")⟩, ?_⟩
    dsimp only
    rw [fileFetch_not_ok net (baseurl ++ "/td.txt") "buffer" (Or.inl rfl) hbad]
    rfl
  · rw [makeTd, if_neg hn]
    dsimp only
    have hx : (fileFetch net u "buffer").1 =
        .error ⟨"fileFetch fail " ++ u, "fileFetch fail " ++ u⟩ :=
      fileFetch_not_ok net u "buffer" (Or.inl rfl) hbad
    obtain ⟨e2, h2⟩ := seqExcept_has_error
      ((makeTdUrls baseurl n).map (fun v => (fileFetch net v "buffer").1))
      ⟨"fileFetch fail " ++ u, "fileFetch fail " ++ u⟩
      ((fileFetch net u "buffer").1)
      (List.mem_map.mpr ⟨u, hu, rfl⟩) hx
    simp only [List.map_map, Function.comp_def]
    rw [h2]
    exact ⟨e2, rfl⟩

/-- Helper: when the download rejects, `downloadBuildBlocklist` leaves
the wrapper untouched (artifact fields unassigned, filter unloaded). -/
theorem dbb_error_wrapper (net : String → HttpResp) (w : BlocklistWrapper)
    (bu ts : String) (ndc tdp : Int) (e : JsError)
    (h : (BlocklistWrapper.downloadBuildBlocklist net w bu ts ndc tdp).1 =
      .error e) :
    (BlocklistWrapper.downloadBuildBlocklist net w bu ts ndc tdp).2.1 = w := by
  unfold BlocklistWrapper.downloadBuildBlocklist at h ⊢
  dsimp only at h ⊢
  revert h
  split <;> intro h <;> simp_all

/-- Helper: a non-2xx response on any request the build issues makes
`downloadBuildBlocklist` reject. -/
theorem dbb_req_fail (net : String → HttpResp) (w : BlocklistWrapper)
    (bu ts : String) (ndc tdp : Int) (req : FetchReq)
    (hmem : req ∈ (BlocklistWrapper.downloadBuildBlocklist net w bu ts
      ndc tdp).2.2)
    (hbad : respOk (net req.url) = false) :
    ∃ e, (BlocklistWrapper.downloadBuildBlocklist net w bu ts ndc tdp).1 =
      .error e := by
  unfold BlocklistWrapper.downloadBuildBlocklist at hmem ⊢
  dsimp only at hmem ⊢
  revert hmem
  split <;> intro hmem
  · exact ⟨_, rfl⟩
  · exact ⟨_, rfl⟩
  · exact ⟨_, rfl⟩
  · rename_i ft td rdc heq0 heq1 heq2
    exfalso
    rcases List.mem_append.mp hmem with hmem01 | hmem2
    · rcases List.mem_append.mp hmem01 with hmem0 | hmem1
      · rw [fileFetch_reqs net _ "json" (Or.inr rfl)] at hmem0
        simp only [List.mem_singleton] at hmem0
        subst hmem0
        rw [fileFetch_not_ok net _ "json" (Or.inr rfl) hbad] at heq0
        cases heq0
      · obtain ⟨e, he⟩ := makeTd_req_fail net _ _ req hmem1 hbad
        rw [he] at heq1
        cases heq1
    · rw [fileFetch_reqs net _ "buffer" (Or.inl rfl)] at hmem2
      simp only [List.mem_singleton] at hmem2
      subst hmem2
      rw [fileFetch_not_ok net _ "buffer" (Or.inl rfl) hbad] at heq2
      cases heq2

/-- C3: when the download/build throws, `initBlocklistConstruction`
returns the error response, records its origin and stack on the wrapper
(`exceptionFrom`, `exceptionStack`), clears the under-construction flag
and installs no filter (the snapshot is exactly what it was before), so
a later caller may retry. -/
theorem initBlocklistConstruction_failure_resets
    (net : String → HttpResp) (w : BlocklistWrapper) (whenMs : Int)
    (bu ts : String) (ndc tdp : Int) (e : JsError)
    (herr : (BlocklistWrapper.downloadBuildBlocklist net
        { w with isBlocklistUnderConstruction := true, startTime := whenMs }
        bu ts ndc tdp).1 = .error e) :
    (BlocklistWrapper.initBlocklistConstruction net w whenMs bu ts ndc
        tdp).1 = errResponse "initBlocklistConstruction" e ∧
    (BlocklistWrapper.initBlocklistConstruction net w whenMs bu ts ndc
        tdp).2.1.exceptionFrom = "initBlocklistConstruction" ∧
    (BlocklistWrapper.initBlocklistConstruction net w whenMs bu ts ndc
        tdp).2.1.exceptionStack = e.stack ∧
    (BlocklistWrapper.initBlocklistConstruction net w whenMs bu ts ndc
        tdp).2.1.isBlocklistUnderConstruction = false ∧
    (BlocklistWrapper.initBlocklistConstruction net w whenMs bu ts ndc
        tdp).2.1.filter = w.filter := by
  have hw := dbb_error_wrapper net
    { w with isBlocklistUnderConstruction := true, startTime := whenMs }
    bu ts ndc tdp e herr
  unfold BlocklistWrapper.initBlocklistConstruction
  dsimp only
  rw [herr]
  exact ⟨rfl, rfl, rfl, rfl, by simp [hw]⟩

/-- Closed witness for `initBlocklistConstruction_failure_resets`: every
artifact URL answers 503, the build fails, the error is recorded, the
flag is cleared and no filter is installed. -/
theorem initBlocklistConstruction_failure_resets_witness :
    (BlocklistWrapper.initBlocklistConstruction (fun _ => ⟨503, []⟩)
        ⟨none, none, none, none, 0, false, "", ""⟩ 5 "u/" "t" 1 2).1 =
      errResponse "initBlocklistConstruction"
        ⟨"fileFetch fail u/t/filetag.json",
         "fileFetch fail u/t/filetag.json"⟩ ∧
    (BlocklistWrapper.initBlocklistConstruction (fun _ => ⟨503, []⟩)
        ⟨none, none, none, none, 0, false, "", ""⟩ 5 "u/" "t" 1
        2).2.1.exceptionFrom = "initBlocklistConstruction" ∧
    (BlocklistWrapper.initBlocklistConstruction (fun _ => ⟨503, []⟩)
        ⟨none, none, none, none, 0, false, "", ""⟩ 5 "u/" "t" 1
        2).2.1.exceptionStack = "fileFetch fail u/t/filetag.json" ∧
    (BlocklistWrapper.initBlocklistConstruction (fun _ => ⟨503, []⟩)
        ⟨none, none, none, none, 0, false, "", ""⟩ 5 "u/" "t" 1
        2).2.1.isBlocklistUnderConstruction = false ∧
    (BlocklistWrapper.initBlocklistConstruction (fun _ => ⟨503, []⟩)
        ⟨none, none, none, none, 0, false, "", ""⟩ 5 "u/" "t" 1
        2).2.1.filter = none :=
  initBlocklistConstruction_failure_resets (fun _ => ⟨503, []⟩)
    ⟨none, none, none, none, 0, false, "", ""⟩ 5 "u/" "t" 1 2
    ⟨"fileFetch fail u/t/filetag.json", "fileFetch fail u/t/filetag.json"⟩
    rfl

/-- C4: `makeTd(baseurl, n)` fetches exactly `{baseurl}/td.txt` when
`n ≤ -1`, and otherwise exactly the `n+1` parts `td00.txt` through
`td{n}.txt` (part index zero-padded to at least two digits, no
grouping), returning the concatenation of the fetched parts in
ascending part order; `tdparts = 2` yields `td00/td01/td02` and
`tdparts = -1` yields `td.txt`. -/
theorem makeTd_parts_and_assembly (net : String → HttpResp)
    (baseurl : String) (n : Int) :
    ((makeTd net baseurl n).2 =
      (makeTdUrls baseurl n).map
        (fun u => (⟨u, "buffer", 1209600⟩ : FetchReq))) ∧
    ((∀ u ∈ makeTdUrls baseurl n, respOk (net u) = true) →
      (makeTd net baseurl n).1 =
        .ok (((makeTdUrls baseurl n).map (fun u => (net u).body)).flatten)) ∧
    (fmt2 0 = "00" ∧ fmt2 9 = "09" ∧ fmt2 10 = "10" ∧ fmt2 100 = "100") ∧
    (makeTdUrls "B" 2 = ["B/td00.txt", "B/td01.txt", "B/td02.txt"] ∧
      makeTdUrls "B" (-1) = ["B/td.txt"]) := by
  refine ⟨makeTd_reqs net baseurl n, ?_, ⟨rfl, rfl, rfl, rfl⟩,
    ⟨by decide, by decide⟩⟩
  intro hall
  by_cases hn : n ≤ -1
  · have hmem : baseurl ++ "/td.txt" ∈ makeTdUrls baseurl n := by
      rw [makeTdUrls, if_pos hn]
      exact List.mem_singleton.mpr rfl
    rw [makeTd, if_pos hn]
    dsimp only
    rw [fileFetch_buffer_ok net (baseurl ++ "/td.txt") (hall _ hmem),
      makeTdUrls, if_pos hn]
    simp [Except.map, contentBytes]
  · rw [makeTd, if_neg hn]
    dsimp only
    simp only [List.map_map, Function.comp_def]
    rw [seqExcept_map_ok net (makeTdUrls baseurl n) hall]
    simp [bufConcat, contentBytes, List.map_map, Function.comp_def]

/-- Closed witness for `makeTd_parts_and_assembly`: three 2xx parts of
one byte each assemble, in order, into the three-byte blob. -/
theorem makeTd_parts_and_assembly_witness :
    (makeTd (fun _ => ⟨200, [7]⟩) "B" 2).1 = .ok [7, 7, 7] :=
  (makeTd_parts_and_assembly (fun _ => ⟨200, [7]⟩) "B" 2).2.1 (by decide)

/-- C5: `fileFetch` throws on an unknown conversion type and on any
non-2xx status; a 2xx response resolves to the parsed JSON document or
the binary buffer according to the requested type; and a non-2xx
response on any request a build issues makes the whole build reject
(`Promise.all`), so the construction returns an exception response and
installs no filter. -/
theorem fileFetch_status_discipline :
    (∀ (net : String → HttpResp) (url typ : String), typ ≠ "buffer" →
      typ ≠ "json" →
      fileFetch net url typ =
        (.error ⟨"Unknown conversion type at fileFetch",
                 "Unknown conversion type at fileFetch"⟩, [])) ∧
    (∀ (net : String → HttpResp) (url typ : String),
      (typ = "buffer" ∨ typ = "json") → respOk (net url) = false →
      (fileFetch net url typ).1 =
        .error ⟨"fileFetch fail " ++ url, "fileFetch fail " ++ url⟩) ∧
    (∀ (net : String → HttpResp) (url : String), respOk (net url) = true →
      fileFetch net url "buffer" =
        (.ok (.buf (net url).body), [⟨url, "buffer", 1209600⟩]) ∧
      fileFetch net url "json" =
        (.ok (.jsonDoc (net url).body), [⟨url, "json", 1209600⟩])) ∧
    (∀ (net : String → HttpResp) (w : BlocklistWrapper) (whenMs : Int)
        (bu ts : String) (ndc tdp : Int) (req : FetchReq),
      req ∈ (BlocklistWrapper.initBlocklistConstruction net w whenMs bu ts
        ndc tdp).2.2 →
      respOk (net req.url) = false →
      (BlocklistWrapper.initBlocklistConstruction net w whenMs bu ts ndc
        tdp).1.isException = true ∧
      (BlocklistWrapper.initBlocklistConstruction net w whenMs bu ts ndc
        tdp).2.1.filter = w.filter) := by
  refine ⟨?_, ?_, ?_, ?_⟩
  · intro net url typ h1 h2
    rw [fileFetch, if_pos ⟨h1, h2⟩]
  · exact fun net url typ h hbad => fileFetch_not_ok net url typ h hbad
  · exact fun net url hok =>
      ⟨fileFetch_buffer_ok net url hok, fileFetch_json_ok net url hok⟩
  · intro net w whenMs bu ts ndc tdp req hmem hbad
    unfold BlocklistWrapper.initBlocklistConstruction at hmem ⊢
    dsimp only at hmem ⊢
    revert hmem
    split <;> intro hmem
    · rename_i bl heq
      obtain ⟨e, he⟩ := dbb_req_fail net _ bu ts ndc tdp req hmem hbad
      rw [he] at heq
      cases heq
    · rename_i e heq
      have hw := dbb_error_wrapper net _ bu ts ndc tdp e heq
      exact ⟨rfl, by simp [hw]⟩

/-- Closed witness for `fileFetch_status_discipline`: an unknown type
throws without fetching, and with every artifact URL answering 503 the
construction installs no filter. -/
theorem fileFetch_status_discipline_witness :
    fileFetch (fun _ => ⟨200, []⟩) "X" "text" =
      (.error ⟨"Unknown conversion type at fileFetch",
               "Unknown conversion type at fileFetch"⟩, []) ∧
    (fileFetch (fun _ => ⟨503, []⟩) "X" "buffer").1 =
      .error ⟨"fileFetch fail X", "fileFetch fail X"⟩ ∧
    fileFetch (fun _ => ⟨204, [9]⟩) "X" "buffer" =
      (.ok (.buf [9]), [⟨"X", "buffer", 1209600⟩]) ∧
    (BlocklistWrapper.initBlocklistConstruction (fun _ => ⟨503, []⟩)
        ⟨none, none, none, none, 0, false, "", ""⟩ 5 "u/" "t" 1
        2).2.1.filter = none :=
  ⟨fileFetch_status_discipline.1 (fun _ => ⟨200, []⟩) "X" "text"
      (by decide) (by decide),
   fileFetch_status_discipline.2.1 (fun _ => ⟨503, []⟩) "X" "buffer"
      (Or.inl rfl) (by decide),
   (fileFetch_status_discipline.2.2.1 (fun _ => ⟨204, [9]⟩) "X"
      (by decide)).1,
   (fileFetch_status_discipline.2.2.2 (fun _ => ⟨503, []⟩)
      ⟨none, none, none, none, 0, false, "", ""⟩ 5 "u/" "t" 1 2
      ⟨"u/t/filetag.json", "json", 1209600⟩ (by decide) (by decide)).2⟩

/-- C6: `downloadBuildBlocklist` awaits exactly three concurrent
fetches over `baseurl = blocklistUrl ++ latestTimestamp` - the
`filetag.json` manifest decoded as JSON, the assembled `td` blob, and
`rd.txt` as binary - and every request it issues carries the CDN cache
TTL hint of 1209600 seconds (two weeks). -/
theorem downloadBuildBlocklist_three_fetches (net : String → HttpResp)
    (w : BlocklistWrapper) (bu ts : String) (ndc tdp : Int) :
    (BlocklistWrapper.downloadBuildBlocklist net w bu ts ndc tdp).2.2 =
      (fileFetch net ((bu ++ ts) ++ "/filetag.json") "json").2 ++
      (makeTd net (bu ++ ts) (jsOrInt tdp (-1))).2 ++
      (fileFetch net ((bu ++ ts) ++ "/rd.txt") "buffer").2 ∧
    (fileFetch net ((bu ++ ts) ++ "/filetag.json") "json").2 =
      [⟨(bu ++ ts) ++ "/filetag.json", "json", 1209600⟩] ∧
    (fileFetch net ((bu ++ ts) ++ "/rd.txt") "buffer").2 =
      [⟨(bu ++ ts) ++ "/rd.txt", "buffer", 1209600⟩] ∧
    (∀ req ∈ (BlocklistWrapper.downloadBuildBlocklist net w bu ts ndc
        tdp).2.2, req.cacheTtl = 1209600) := by
  have hreqs : (BlocklistWrapper.downloadBuildBlocklist net w bu ts ndc
      tdp).2.2 =
      (fileFetch net ((bu ++ ts) ++ "/filetag.json") "json").2 ++
      (makeTd net (bu ++ ts) (jsOrInt tdp (-1))).2 ++
      (fileFetch net ((bu ++ ts) ++ "/rd.txt") "buffer").2 := by
    unfold BlocklistWrapper.downloadBuildBlocklist
    dsimp only
    split <;> rfl
  refine ⟨hreqs, fileFetch_reqs net _ "json" (Or.inr rfl),
    fileFetch_reqs net _ "buffer" (Or.inl rfl), ?_⟩
  intro req hmem
  rw [hreqs] at hmem
  rcases List.mem_append.mp hmem with h01 | h2
  · rcases List.mem_append.mp h01 with h0 | h1
    · rw [fileFetch_reqs net _ "json" (Or.inr rfl)] at h0
      simp only [List.mem_singleton] at h0
      subst h0
      rfl
    · rw [makeTd_reqs] at h1
      obtain ⟨u, _, rfl⟩ := List.mem_map.mp h1
      rfl
  · rw [fileFetch_reqs net _ "buffer" (Or.inl rfl)] at h2
    simp only [List.mem_singleton] at h2
    subst h2
    rfl

/-- Closed witness for `downloadBuildBlocklist_three_fetches`: the TTL
of a concrete issued request. -/
theorem downloadBuildBlocklist_three_fetches_witness :
    (⟨"u/t/td01.txt", "buffer", 1209600⟩ : FetchReq).cacheTtl = 1209600 :=
  (downloadBuildBlocklist_three_fetches (fun _ => ⟨200, []⟩)
      ⟨none, none, none, none, 0, false, "", ""⟩ "u/" "t" 1 2).2.2.2
    ⟨"u/t/td01.txt", "buffer", 1209600⟩ (by decide)
